import Mathlib

/-
Verification of the GunCon 2 USB light-gun driver core (guncon2.c, the
two-logical-device variant): report decoding, validity filtering with the
offscreen debounce counter, last-known-position substitution, event fan-out
to the joystick-style and mouse-style logical devices, and the
reference-counted open/close session manager.

The embedding mirrors the C source.  Machine integers that can overflow
(the function-static `int offscreen_frames` debounce counter) are modelled
as mathematical integers reduced modulo 2^32 into two's-complement range,
matching the wrapping semantics the kernel build guarantees
(-fno-strict-overflow).  The uninitialised local `retval` in guncon2_open
is modelled as an explicit `junk` parameter: on the path that leaves it
unassigned, the function returns that arbitrary value.
-/

namespace Guncon2

/-- Default calibration constant X_MIN from the source. -/
def X_MIN : Nat := 175

/-- Default calibration constant X_MAX from the source. -/
def X_MAX : Nat := 720

/-- Default calibration constant Y_MIN from the source. -/
def Y_MIN : Nat := 20

/-- Default calibration constant Y_MAX from the source. -/
def Y_MAX : Nat := 240

/-- Debounce threshold OFFSCREEN_HYST_FRAMES (8 consecutive invalid frames). -/
def OFFSCREEN_HYST_FRAMES : Int := 8

/-- Button bit masks over the inverted 16-bit button word, from the source. -/
def GUNCON2_DPAD_LEFT : Nat := 2 ^ 15

def GUNCON2_DPAD_RIGHT : Nat := 2 ^ 13

def GUNCON2_DPAD_UP : Nat := 2 ^ 12

def GUNCON2_DPAD_DOWN : Nat := 2 ^ 14

def GUNCON2_TRIGGER : Nat := 2 ^ 5

def GUNCON2_BTN_A : Nat := 2 ^ 11

def GUNCON2_BTN_B : Nat := 2 ^ 10

def GUNCON2_BTN_C : Nat := 2 ^ 9

def GUNCON2_BTN_START : Nat := 2 ^ 7

def GUNCON2_BTN_SELECT : Nat := 2 ^ 6

/-- Linux input event code for the joystick trigger button. -/
def BTN_TRIGGER : Nat := 0x120

def BTN_A : Nat := 0x130

def BTN_B : Nat := 0x131

def BTN_C : Nat := 0x132

def BTN_Z : Nat := 0x135

def BTN_SELECT : Nat := 0x13a

def BTN_START : Nat := 0x13b

def BTN_LEFT : Nat := 0x110

def BTN_RIGHT : Nat := 0x111

def BTN_MIDDLE : Nat := 0x112

def BTN_EXTRA : Nat := 0x114

/-- Reduce an integer into 32-bit two's-complement range, the wrapping
behaviour of the C `int` counter under the kernel's -fno-strict-overflow. -/
def wrap32 (n : Int) : Int := (n + 2 ^ 31) % 2 ^ 32 - 2 ^ 31

/-- Per-instance fields of `struct guncon2` touched by the report callback:
the last-known-good position cache. -/
structure Guncon2Dev where
  last_x : Nat
  last_y : Nat
  have_last_pos : Bool
deriving DecidableEq

/-- State read and written by one report callback: the function-static
`offscreen_frames` counter together with the per-instance cache fields. -/
structure IrqState where
  offscreen_frames : Int
  dev : Guncon2Dev
deriving DecidableEq

/-- Initial callback state: devm_kzalloc zeroes the instance, and the
static counter starts at 0. -/
def initIrq : IrqState := ⟨0, ⟨0, 0, false⟩⟩

/-- One input event sent to a logical device. -/
inductive Ev where
  | absX : Nat → Ev
  | absY : Nat → Ev
  | hatX : Int → Ev
  | hatY : Int → Ev
  | key : Nat → Bool → Ev
  | sync : Ev
deriving DecidableEq

/-- URB completion status cases distinguished by the callback. -/
inductive UrbStatus where
  | ok : UrbStatus
  | etime : UrbStatus
  | econnreset : UrbStatus
  | enoent : UrbStatus
  | eshutdown : UrbStatus
  | epipe : UrbStatus
  | other : Int → UrbStatus
deriving DecidableEq

/-- Everything one invocation of the callback does: resulting state, the
event batch sent to each logical device, and whether the URB was
resubmitted. -/
structure IrqResult where
  state : IrqState
  jsEvents : List Ev
  mouEvents : List Ev
  resubmit : Bool
deriving DecidableEq

/-- raw_x = (data[3] << 8) | data[2]. -/
def raw_x (data : Nat → Nat) : Nat := ((data 3) <<< 8) ||| (data 2)

/-- raw_y = data[4]. -/
def raw_y (data : Nat → Nat) : Nat := data 4

/-- buttons = ((data[0] << 8) | data[1]) ^ 0xffff. -/
def buttonsOf (data : Nat → Nat) : Nat := (((data 0) <<< 8) ||| (data 1)) ^^^ 0xffff

/-- The sentinel filter chain of the callback: the reserved
no-light/busy/idle codes and the calibrated-range check, first match wins. -/
def invalid_coords (rx ry : Nat) : Bool :=
  if rx = 1 ∧ (ry = 5 ∨ ry = 10) then true
  else if rx = 0 ∧ ry = 0 then true
  else if rx < X_MIN ∨ X_MAX < rx ∨ ry < Y_MIN ∨ Y_MAX < ry then true
  else false

/-- Update of the static `offscreen_frames` counter: wrapping increment on
an invalid frame, reset to 0 on a usable frame. -/
def updateFrames (invalid : Bool) (c : Int) : Int :=
  if invalid then wrap32 (c + 1) else 0

/-- offscreen = (offscreen_frames >= OFFSCREEN_HYST_FRAMES). -/
def offscreenOf (c : Int) : Bool := decide (OFFSCREEN_HYST_FRAMES ≤ c)

/-- Update of the last-known-position cache: a usable frame overwrites it
and marks it present; an invalid frame leaves it untouched. -/
def updateDev (invalid : Bool) (rx ry : Nat) (dev : Guncon2Dev) : Guncon2Dev :=
  if invalid then dev else ⟨rx, ry, true⟩

/-- Position events emitted to a logical device: the cached last good
position whenever one exists, nothing otherwise. -/
def posEvents (dev : Guncon2Dev) : List Ev :=
  if dev.have_last_pos then [Ev.absX dev.last_x, Ev.absY dev.last_y] else []

/-- hat_x from the dpad bits: left and right contribute -1 and +1. -/
def hat_x (buttons : Nat) : Int :=
  (if buttons &&& GUNCON2_DPAD_LEFT ≠ 0 then (-1 : Int) else 0) +
  (if buttons &&& GUNCON2_DPAD_RIGHT ≠ 0 then (1 : Int) else 0)

/-- hat_y from the dpad bits: up and down contribute -1 and +1. -/
def hat_y (buttons : Nat) : Int :=
  (if buttons &&& GUNCON2_DPAD_UP ≠ 0 then (-1 : Int) else 0) +
  (if buttons &&& GUNCON2_DPAD_DOWN ≠ 0 then (1 : Int) else 0)

/-- The body of the callback for a successfully delivered 6-byte report
(lines 105-222 of the source): decode, filter, update state, and fan the
sample out to the two logical devices, then resubmit. -/
def processReport (data : Nat → Nat) (s : IrqState) : IrqResult :=
  let rx := raw_x data
  let ry := raw_y data
  let invalid := invalid_coords rx ry
  let frames := updateFrames invalid s.offscreen_frames
  let offscreen := offscreenOf frames
  let dev := updateDev invalid rx ry s.dev
  let buttons := buttonsOf data
  ⟨⟨frames, dev⟩,
    posEvents dev ++
      [Ev.hatX (hat_x buttons), Ev.hatY (hat_y buttons),
        Ev.key BTN_TRIGGER (buttons &&& GUNCON2_TRIGGER != 0),
        Ev.key BTN_A (buttons &&& GUNCON2_BTN_A != 0),
        Ev.key BTN_B (buttons &&& GUNCON2_BTN_B != 0),
        Ev.key BTN_C (buttons &&& GUNCON2_BTN_C != 0),
        Ev.key BTN_START (buttons &&& GUNCON2_BTN_START != 0),
        Ev.key BTN_SELECT (buttons &&& GUNCON2_BTN_SELECT != 0),
        Ev.key BTN_Z offscreen,
        Ev.sync],
    posEvents dev ++
      [Ev.key BTN_LEFT (buttons &&& GUNCON2_TRIGGER != 0),
        Ev.key BTN_RIGHT ((buttons &&& GUNCON2_BTN_A != 0) || (buttons &&& GUNCON2_BTN_C != 0)),
        Ev.key BTN_MIDDLE (buttons &&& GUNCON2_BTN_B != 0),
        Ev.key BTN_EXTRA offscreen,
        Ev.sync],
    true⟩

/-- The full URB completion callback guncon2_usb_irq: dispatch on the
delivery status, drop any report whose length is not exactly 6, and
resubmit except on the terminal statuses. -/
def guncon2_usb_irq (status : UrbStatus) (actual_length : Nat) (data : Nat → Nat)
    (s : IrqState) : IrqResult :=
  match status with
  | UrbStatus.ok =>
      if actual_length = 6 then processReport data s
      else ⟨s, [], [], true⟩
  | UrbStatus.etime => ⟨s, [], [], false⟩
  | UrbStatus.econnreset => ⟨s, [], [], false⟩
  | UrbStatus.enoent => ⟨s, [], [], false⟩
  | UrbStatus.eshutdown => ⟨s, [], [], false⟩
  | UrbStatus.epipe => ⟨s, [], [], false⟩
  | UrbStatus.other _ => ⟨s, [], [], true⟩

/-- State transition of one valid-length successful report. -/
def stepReport (data : Nat → Nat) (s : IrqState) : IrqState :=
  (processReport data s).state

/-- Run a list of valid-length successful reports through the callback. -/
def runReports (ds : List (Nat → Nat)) (s : IrqState) : IrqState :=
  ds.foldl (fun t d => stepReport d t) s

/-- One delivered URB: status, actual length and transfer buffer. -/
structure Report where
  status : UrbStatus
  actual_length : Nat
  data : Nat → Nat

/-- State transition of one arbitrary callback invocation. -/
def stepIrq (r : Report) (s : IrqState) : IrqState :=
  (guncon2_usb_irq r.status r.actual_length r.data s).state

/-- Run a list of arbitrary callback invocations. -/
def runIrqs (rs : List Report) (s : IrqState) : IrqState :=
  rs.foldl (fun t r => stepIrq r t) s

/-- A concrete sentinel report buffer: decodes to (x, y) = (1, 10), the
no-light/busy code, with all buttons released. -/
def sentinelBuf : Nat → Nat :=
  fun i => if i = 4 then 10 else if i = 2 then 1 else if i ≤ 1 then 0xff else 0

/-- A concrete usable report buffer: decodes to (x, y) = (400, 130), inside
the calibrated range, with all buttons released. -/
def usableBuf : Nat → Nat :=
  fun i =>
    if i = 2 then 144 else if i = 3 then 1 else if i = 4 then 130
    else if i ≤ 1 then 0xff else 0

/-- Session fields of `struct guncon2` managed by open/close: the
reference count, the is_open flag, and whether the interrupt URB is
currently submitted (the physical stream is active). -/
structure SessionState where
  open_count : Nat
  is_open : Bool
  streaming : Bool
deriving DecidableEq

/-- Session state after probe: count 0, flag clear, stream inactive. -/
def initSession : SessionState := ⟨0, false, false⟩

/-- guncon2_open.  `allocOk` is the outcome of the kzalloc for the mode
command, `submitRet` the return of usb_submit_urb, and `junk` the value
the uninitialised local `retval` happens to hold: on the path where the
reference count is already positive the source never assigns `retval`
and returns it as is. -/
def guncon2_open (allocOk : Bool) (submitRet : Int) (junk : Int)
    (s : SessionState) : SessionState × Int :=
  if s.open_count = 0 then
    if !allocOk then (s, -12)
    else if submitRet ≠ 0 then (s, -5)
    else (⟨s.open_count + 1, true, true⟩, 0)
  else
    (⟨s.open_count + 1, s.is_open, s.streaming⟩, junk)

/-- guncon2_close: decrement a positive count; on reaching 0 kill the URB
and clear is_open; a close with count 0 changes nothing. -/
def guncon2_close (s : SessionState) : SessionState :=
  if 0 < s.open_count then
    let s1 : SessionState := ⟨s.open_count - 1, s.is_open, s.streaming⟩
    if s1.open_count = 0 then ⟨0, false, false⟩ else s1
  else s

/-- One session-manager call issued by either logical device. -/
inductive SessionOp where
  | openCall : Bool → Int → Int → SessionOp
  | closeCall : SessionOp

/-- Apply one open/close call to the shared session state. -/
def sessionStep (s : SessionState) (op : SessionOp) : SessionState :=
  match op with
  | SessionOp.openCall a r j => (guncon2_open a r j s).1
  | SessionOp.closeCall => guncon2_close s

/-- Run an interleaving of open/close calls from the probe-time state. -/
def sessionRun (ops : List SessionOp) : SessionState :=
  ops.foldl sessionStep initSession

/-- Two driver instances (two plugged-in guns) sharing the single
function-static `offscreen_frames` counter while owning separate
per-instance caches. -/
structure TwoDevWorld where
  offscreen_frames : Int
  devA : Guncon2Dev
  devB : Guncon2Dev
deriving DecidableEq

/-- Two freshly probed instances, static counter at its initial 0. -/
def initWorld : TwoDevWorld := ⟨0, ⟨0, 0, false⟩, ⟨0, 0, false⟩⟩

/-- Deliver a valid-length report to instance A: the shared static counter
and only A's cache are updated. -/
def stepOnA (data : Nat → Nat) (w : TwoDevWorld) : TwoDevWorld :=
  let r := processReport data ⟨w.offscreen_frames, w.devA⟩
  ⟨r.state.offscreen_frames, r.state.dev, w.devB⟩

/-- Deliver a valid-length report to instance B. -/
def stepOnB (data : Nat → Nat) (w : TwoDevWorld) : TwoDevWorld :=
  let r := processReport data ⟨w.offscreen_frames, w.devB⟩
  ⟨r.state.offscreen_frames, w.devA, r.state.dev⟩

/-- The full callback result of a report delivered to instance B,
including the events it emits. -/
def irqOnB (data : Nat → Nat) (w : TwoDevWorld) : IrqResult :=
  processReport data ⟨w.offscreen_frames, w.devB⟩

/-- Deliver n copies of one report to instance A. -/
def runOnA (n : Nat) (data : Nat → Nat) (w : TwoDevWorld) : TwoDevWorld :=
  (List.replicate n data).foldl (fun t d => stepOnA d t) w

/-- A last-known position is good when it lies inside the calibrated
range and is none of the reserved sentinel codes. -/
def goodPos (x y : Nat) : Prop :=
  X_MIN ≤ x ∧ x ≤ X_MAX ∧ Y_MIN ≤ y ∧ y ≤ Y_MAX ∧
    ¬(x = 1 ∧ (y = 5 ∨ y = 10)) ∧ ¬(x = 0 ∧ y = 0)

/-- Invariant of the report callback: whenever the cache is marked
present, the cached pair is good. -/
def CacheInv (s : IrqState) : Prop :=
  s.dev.have_last_pos = true → goodPos s.dev.last_x s.dev.last_y

/-- Invariant of the session manager: is_open holds exactly when the
reference count is positive, and the stream is active exactly when
is_open holds. -/
def SessionInv (s : SessionState) : Prop :=
  (s.is_open = true ↔ 0 < s.open_count) ∧ s.streaming = s.is_open

/-- Helper: wrap32 is the identity on values already inside 32-bit
two's-complement range. -/
theorem wrap32_eq_self (n : Int) (h1 : -(2 ^ 31) ≤ n) (h2 : n < 2 ^ 31) : wrap32 n = n := by
  unfold wrap32
  omega

/-- Helper: characterisation of the sentinel filter chain as one
disjunction. -/
theorem invalid_coords_eq_true_iff (x y : Nat) :
    invalid_coords x y = true ↔
      (x = 1 ∧ (y = 5 ∨ y = 10)) ∨ (x = 0 ∧ y = 0) ∨
        x < X_MIN ∨ X_MAX < x ∨ y < Y_MIN ∨ Y_MAX < y := by
  unfold invalid_coords
  split_ifs with h1 h2 h3 <;> simp_all

/-- Helper: a pair the filter classifies usable is in range and is none
of the reserved codes. -/
theorem goodPos_of_invalid_eq_false (x y : Nat) (h : invalid_coords x y = false) :
    goodPos x y := by
  unfold invalid_coords at h
  split_ifs at h with h1 h2 h3
  unfold goodPos
  refine ⟨?_, ?_, ?_, ?_, h1, h2⟩ <;> omega

/-- Helper: one open or close call preserves the session invariant. -/
theorem sessionStep_inv (s : SessionState) (op : SessionOp) (h : SessionInv s) :
    SessionInv (sessionStep s op) := by
  obtain ⟨h1, h2⟩ := h
  cases op with
  | openCall a r j =>
      simp only [sessionStep, guncon2_open]
      split_ifs with hc hA hR
      · exact ⟨h1, h2⟩
      · exact ⟨h1, h2⟩
      · exact ⟨by simp, rfl⟩
      · refine ⟨?_, h2⟩
        dsimp only
        constructor
        · intro _; omega
        · intro _; exact h1.mpr (by omega)
  | closeCall =>
      simp only [sessionStep, guncon2_close]
      split_ifs with hc hz
      · exact ⟨by simp, rfl⟩
      · refine ⟨?_, h2⟩
        dsimp only
        constructor
        · intro _; omega
        · intro _; exact h1.mpr hc
      · exact ⟨h1, h2⟩

/-- Helper: the session invariant is preserved by any interleaving. -/
theorem sessionRun_inv_aux (ops : List SessionOp) :
    ∀ s, SessionInv s → SessionInv (ops.foldl sessionStep s) := by
  induction ops with
  | nil => intro s h; exact h
  | cons op t ih => intro s h; exact ih _ (sessionStep_inv s op h)

/-- C1: the claim says a call to open() with the reference count already
positive increments the count and returns success.  The source leaves the
local retval unassigned on that path and returns it: here, with the
uninitialised value modelled as -22, the second open increments the count
to 2 but returns -22, a failure code, not success. -/
theorem guncon2_open_second_call_returns_garbage :
    (guncon2_open true 0 (-22) ⟨1, true, true⟩).2 = -22 ∧
      (guncon2_open true 0 (-22) ⟨1, true, true⟩).2 ≠ 0 ∧
      (guncon2_open true 0 (-22) ⟨1, true, true⟩).1.open_count = 2 := by
  decide

/-- C2: close() with a positive count decrements it; exactly when the
count reaches 0 the stream is stopped and is_open cleared, otherwise
stream state is untouched; close() with count 0 changes nothing. -/
theorem guncon2_close_correct (s : SessionState) :
    (s.open_count = 0 → guncon2_close s = s) ∧
      (0 < s.open_count →
        (guncon2_close s).open_count = s.open_count - 1 ∧
          (s.open_count = 1 →
            (guncon2_close s).streaming = false ∧ (guncon2_close s).is_open = false) ∧
          (1 < s.open_count →
            (guncon2_close s).streaming = s.streaming ∧
              (guncon2_close s).is_open = s.is_open)) := by
  simp only [guncon2_close]
  constructor
  · intro h
    rw [if_neg (by omega)]
  · intro h
    rw [if_pos h]
    dsimp only
    split_ifs with hz
    · dsimp only
      exact ⟨by omega, fun _ => ⟨rfl, rfl⟩, fun hgt => absurd hz (by omega)⟩
    · exact ⟨rfl, fun he => absurd (by omega) hz, fun _ => ⟨rfl, rfl⟩⟩

/-- Witness for C2: closing an already-closed session is a no-op. -/
theorem guncon2_close_correct_witness : guncon2_close initSession = initSession :=
  (guncon2_close_correct initSession).1 rfl

/-- C3: in every state reachable by an interleaving of open() and close()
calls from the two logical devices, is_open holds exactly when the
reference count is positive, and the physical stream is active exactly
when is_open holds. -/
theorem session_refcount_invariant (ops : List SessionOp) :
    ((sessionRun ops).is_open = true ↔ 0 < (sessionRun ops).open_count) ∧
      (sessionRun ops).streaming = (sessionRun ops).is_open :=
  sessionRun_inv_aux ops initSession ⟨by simp [initSession], rfl⟩

/-- Witness for C3 at the interleaving made of one successful open. -/
theorem session_refcount_invariant_witness :
    0 < (sessionRun [SessionOp.openCall true 0 0]).open_count :=
  (session_refcount_invariant [SessionOp.openCall true 0 0]).1.mp (by decide)

/-- C4: a decoded pair is classified sentinel exactly when it is one of
the reserved codes (1,5), (1,10), (0,0) or lies outside the calibrated
range; in particular all four corner points of the calibrated range are
classified usable. -/
theorem sentinel_classification (x y : Nat) :
    (invalid_coords x y = true ↔
      (x = 1 ∧ (y = 5 ∨ y = 10)) ∨ (x = 0 ∧ y = 0) ∨
        x < X_MIN ∨ X_MAX < x ∨ y < Y_MIN ∨ Y_MAX < y) ∧
      invalid_coords X_MIN Y_MIN = false ∧ invalid_coords X_MIN Y_MAX = false ∧
      invalid_coords X_MAX Y_MIN = false ∧ invalid_coords X_MAX Y_MAX = false :=
  ⟨invalid_coords_eq_true_iff x y, by decide, by decide, by decide, by decide⟩

/-- Witness for C4: the reserved code (1, 5) is classified sentinel. -/
theorem sentinel_classification_witness : invalid_coords 1 5 = true :=
  (sentinel_classification 1 5).1.mpr (Or.inl (by decide))

/-- C7: a successfully delivered report whose length is not 6 decodes no
sample, emits no event on either logical device, changes no state, and
still resubmits the URB. -/
theorem short_report_dropped (len : Nat) (h : len ≠ 6) (data : Nat → Nat) (s : IrqState) :
    guncon2_usb_irq UrbStatus.ok len data s = ⟨s, [], [], true⟩ := by
  unfold guncon2_usb_irq
  rw [if_neg h]

/-- Witness for C7 at a 5-byte report. -/
theorem short_report_dropped_witness :
    guncon2_usb_irq UrbStatus.ok 5 (fun _ => 0) initIrq = ⟨initIrq, [], [], true⟩ :=
  short_report_dropped 5 (by decide) (fun _ => 0) initIrq

/-- Helper: an invalid frame only advances the counter with a wrapping
increment, leaving the cache untouched. -/
theorem stepReport_invalid (d : Nat → Nat) (s : IrqState)
    (h : invalid_coords (raw_x d) (raw_y d) = true) :
    stepReport d s = ⟨wrap32 (s.offscreen_frames + 1), s.dev⟩ := by
  simp [stepReport, processReport, updateFrames, updateDev, h]

/-- Helper: a usable frame resets the counter and overwrites the cache. -/
theorem stepReport_valid (d : Nat → Nat) (s : IrqState)
    (h : invalid_coords (raw_x d) (raw_y d) = false) :
    stepReport d s = ⟨0, ⟨raw_x d, raw_y d, true⟩⟩ := by
  simp [stepReport, processReport, updateFrames, updateDev, h]

/-- Helper: unfolding one report off a run. -/
theorem runReports_cons (d : Nat → Nat) (ds : List (Nat → Nat)) (s : IrqState) :
    runReports (d :: ds) s = runReports ds (stepReport d s) := rfl

/-- Helper: splitting the last report off a run. -/
theorem runReports_snoc (d : Nat → Nat) (ds : List (Nat → Nat)) (s : IrqState) :
    runReports (ds ++ [d]) s = stepReport d (runReports ds s) := by
  simp [runReports, List.foldl_append]

/-- Helper: counter value after n consecutive sentinel frames — it counts
up until the 32-bit wrap point and wraps to the minimum there. -/
theorem runReports_replicate_counter (d : Nat → Nat)
    (hd : invalid_coords (raw_x d) (raw_y d) = true) :
    ∀ (n : Nat) (s : IrqState), 0 ≤ s.offscreen_frames → s.offscreen_frames < 2 ^ 31 →
      s.offscreen_frames + n ≤ 2 ^ 31 →
      (runReports (List.replicate n d) s).offscreen_frames =
        if s.offscreen_frames + n < 2 ^ 31 then s.offscreen_frames + n else -(2 ^ 31) := by
  intro n
  induction n with
  | zero =>
      intro s h0 hlt hle
      simp only [List.replicate_zero, runReports, List.foldl_nil]
      split_ifs <;> omega
  | succ k ih =>
      intro s h0 hlt hle
      rw [List.replicate_succ, runReports_cons, stepReport_invalid d s hd]
      by_cases hc : s.offscreen_frames + 1 < 2 ^ 31
      · rw [wrap32_eq_self _ (by omega) hc]
        have hih := ih ⟨s.offscreen_frames + 1, s.dev⟩ (by dsimp only; omega)
          (by dsimp only; omega) (by dsimp only; push_cast; omega)
        dsimp only at hih
        rw [hih]
        split_ifs <;> push_cast at * <;> omega
      · have hk : k = 0 := by omega
        subst hk
        simp only [List.replicate_zero, runReports, List.foldl_nil]
        have hw : s.offscreen_frames + 1 = 2 ^ 31 := by omega
        rw [hw]
        have hv : wrap32 (2 ^ 31) = -(2 ^ 31) := by decide
        rw [hv, if_neg (by push_cast; omega)]

/-- Helper: sentinel frames never touch the position cache. -/
theorem runReports_replicate_dev (d : Nat → Nat)
    (hd : invalid_coords (raw_x d) (raw_y d) = true) :
    ∀ (n : Nat) (s : IrqState), (runReports (List.replicate n d) s).dev = s.dev := by
  intro n
  induction n with
  | zero => intro s; simp only [List.replicate_zero, runReports, List.foldl_nil]
  | succ k ih =>
      intro s
      rw [List.replicate_succ, runReports_cons, stepReport_invalid d s hd]
      exact ih _

/-- Helper: the joystick batch always carries the BTN_Z offscreen key with
the debounced value computed from the updated counter. -/
theorem btnZ_mem (d : Nat → Nat) (s : IrqState) :
    Ev.key BTN_Z
        (offscreenOf (updateFrames (invalid_coords (raw_x d) (raw_y d)) s.offscreen_frames)) ∈
      (processReport d s).jsEvents := by
  simp [processReport]

/-- Helper: the mouse batch always carries the BTN_EXTRA offscreen key. -/
theorem btnExtra_mem (d : Nat → Nat) (s : IrqState) :
    Ev.key BTN_EXTRA
        (offscreenOf (updateFrames (invalid_coords (raw_x d) (raw_y d)) s.offscreen_frames)) ∈
      (processReport d s).mouEvents := by
  simp [processReport]

/-- C5 (amended): starting from a reset counter, the (k+1)-th consecutive
sentinel frame with 7 ≤ k < 2^31 - 1 reports offscreen true on BTN_Z, and
any usable frame, from any state, reports offscreen false — provided the
sentinel run is shorter than 2^31 frames, the bound forced by the 32-bit
wraparound of the counter. -/
theorem offscreen_debounce (s : IrqState) (hs : s.offscreen_frames = 0)
    (k : Nat) (h7 : 7 ≤ k) (hk : (k : Int) < 2 ^ 31 - 1)
    (d u : Nat → Nat)
    (hd : invalid_coords (raw_x d) (raw_y d) = true)
    (hu : invalid_coords (raw_x u) (raw_y u) = false)
    (t : IrqState) :
    Ev.key BTN_Z true ∈ (processReport d (runReports (List.replicate k d) s)).jsEvents ∧
      Ev.key BTN_Z false ∈ (processReport u t).jsEvents := by
  constructor
  · have h0 := runReports_replicate_counter d hd k s (by omega) (by omega) (by omega)
    rw [hs] at h0
    have hcount : (runReports (List.replicate k d) s).offscreen_frames = (k : Int) := by
      rw [h0, if_pos (by omega)]
      omega
    have hoff : offscreenOf (updateFrames (invalid_coords (raw_x d) (raw_y d))
        (runReports (List.replicate k d) s).offscreen_frames) = true := by
      rw [hd, hcount]
      simp only [updateFrames, if_true]
      rw [wrap32_eq_self _ (by omega) (by omega)]
      simp only [offscreenOf, OFFSCREEN_HYST_FRAMES, decide_eq_true_eq]
      omega
    have hm := btnZ_mem d (runReports (List.replicate k d) s)
    rw [hoff] at hm
    exact hm
  · have hoff : offscreenOf (updateFrames (invalid_coords (raw_x u) (raw_y u))
        t.offscreen_frames) = false := by
      rw [hu]
      simp [updateFrames, offscreenOf, OFFSCREEN_HYST_FRAMES]
    have hm2 := btnZ_mem u t
    rw [hoff] at hm2
    exact hm2

/-- Witness for C5: the 8th consecutive sentinel frame reports offscreen
true, and a usable frame reports offscreen false. -/
theorem offscreen_debounce_witness :
    Ev.key BTN_Z true ∈
        (processReport sentinelBuf (runReports (List.replicate 7 sentinelBuf) initIrq)).jsEvents ∧
      Ev.key BTN_Z false ∈ (processReport usableBuf initIrq).jsEvents :=
  offscreen_debounce initIrq rfl 7 (by decide) (by decide) sentinelBuf usableBuf
    (by decide) (by decide) initIrq

/-- Helper: the concrete sentinel buffer decodes to the reserved (1, 10)
code. -/
theorem sentinelBuf_invalid : invalid_coords (raw_x sentinelBuf) (raw_y sentinelBuf) = true := by
  decide

/-- Helper: extensionality for the callback state. -/
theorem IrqState_ext (s t : IrqState) (h1 : s.offscreen_frames = t.offscreen_frames)
    (h2 : s.dev = t.dev) : s = t := by
  cases s
  cases t
  cases h1
  cases h2
  rfl

/-- Helper: the full state after 2^31 - 1 consecutive sentinel frames from
the initial state: counter at the top of the int range, cache untouched. -/
theorem state_after_wrap_run :
    runReports (List.replicate (2 ^ 31 - 1) sentinelBuf) initIrq =
      ⟨2 ^ 31 - 1, ⟨0, 0, false⟩⟩ := by
  have h1 : (runReports (List.replicate (2 ^ 31 - 1) sentinelBuf) initIrq).offscreen_frames =
      ((2 : Int) ^ 31 - 1) := by
    have h0 := runReports_replicate_counter sentinelBuf sentinelBuf_invalid (2 ^ 31 - 1) initIrq
      (by decide) (by decide) (by norm_num [initIrq])
    rw [h0, if_pos (by norm_num [initIrq])]
    norm_num [initIrq]
  have h2 : (runReports (List.replicate (2 ^ 31 - 1) sentinelBuf) initIrq).dev =
      (⟨0, 0, false⟩ : Guncon2Dev) :=
    runReports_replicate_dev sentinelBuf sentinelBuf_invalid (2 ^ 31 - 1) initIrq
  exact IrqState_ext _ _ h1 h2

/-- C5 counterexample: the 2^31-th consecutive sentinel frame — a run of
8 or more sentinel frames — does not report offscreen true: the counter
has wrapped to -2^31 and the frame reports BTN_Z false. -/
theorem offscreen_debounce_wrap_cex :
    Ev.key BTN_Z true ∉
        (processReport sentinelBuf
          (runReports (List.replicate (2 ^ 31 - 1) sentinelBuf) initIrq)).jsEvents ∧
      Ev.key BTN_Z false ∈
        (processReport sentinelBuf
          (runReports (List.replicate (2 ^ 31 - 1) sentinelBuf) initIrq)).jsEvents := by
  rw [state_after_wrap_run]
  decide

/-- C8 (amended): on a sentinel frame the counter is incremented with
32-bit wraparound — it grows by one except at 2^31 - 1, where the
increment wraps it to -2^31 — and on a usable frame it is reset to 0. -/
theorem counter_update_amended (s : IrqState) (d : Nat → Nat)
    (hlo : -(2 ^ 31) ≤ s.offscreen_frames) (hhi : s.offscreen_frames < 2 ^ 31) :
    (invalid_coords (raw_x d) (raw_y d) = true →
      (s.offscreen_frames < 2 ^ 31 - 1 →
        (stepReport d s).offscreen_frames = s.offscreen_frames + 1) ∧
      (s.offscreen_frames = 2 ^ 31 - 1 →
        (stepReport d s).offscreen_frames = -(2 ^ 31))) ∧
    (invalid_coords (raw_x d) (raw_y d) = false →
      (stepReport d s).offscreen_frames = 0) := by
  constructor
  · intro hinv
    rw [stepReport_invalid d s hinv]
    dsimp only
    constructor
    · intro h
      exact wrap32_eq_self _ (by omega) (by omega)
    · intro h
      rw [h]
      decide
  · intro hv
    rw [stepReport_valid d s hv]

/-- Witness for C8: a first sentinel frame takes the counter from 0 to 1. -/
theorem counter_update_amended_witness :
    (stepReport sentinelBuf initIrq).offscreen_frames = initIrq.offscreen_frames + 1 :=
  ((counter_update_amended initIrq sentinelBuf (by decide) (by decide)).1 (by decide)).1
    (by decide)

/-- C8 counterexample: after one more sentinel frame — an increment — the
counter is smaller than before: the 2^31-th increment wraps it from
2^31 - 1 to -2^31, so the increment is not saturating. -/
theorem counter_wrap_cex :
    (runReports (List.replicate (2 ^ 31) sentinelBuf) initIrq).offscreen_frames <
        (runReports (List.replicate (2 ^ 31 - 1) sentinelBuf) initIrq).offscreen_frames ∧
      runReports (List.replicate (2 ^ 31) sentinelBuf) initIrq =
        stepReport sentinelBuf (runReports (List.replicate (2 ^ 31 - 1) sentinelBuf) initIrq) := by
  have hsplit : (2 ^ 31 : Nat) = (2 ^ 31 - 1) + 1 := by norm_num
  have hrep : List.replicate (2 ^ 31 : Nat) sentinelBuf =
      List.replicate (2 ^ 31 - 1) sentinelBuf ++ [sentinelBuf] := by
    rw [hsplit, List.replicate_succ']
    norm_num
  constructor
  · rw [hrep, runReports_snoc, state_after_wrap_run]
    decide
  · rw [hrep, runReports_snoc]

/-- C6: once the cache is marked present it stays present; every frame
processed with the cache present emits the cached pair on both logical
devices; sentinel frames never change the cached pair; and while the
cache is absent, a sentinel frame emits no position at all. -/
theorem last_pos_emission (s : IrqState) (d : Nat → Nat) :
    (s.dev.have_last_pos = true → (processReport d s).state.dev.have_last_pos = true) ∧
      ((processReport d s).state.dev.have_last_pos = true →
        Ev.absX (processReport d s).state.dev.last_x ∈ (processReport d s).jsEvents ∧
          Ev.absY (processReport d s).state.dev.last_y ∈ (processReport d s).jsEvents ∧
          Ev.absX (processReport d s).state.dev.last_x ∈ (processReport d s).mouEvents ∧
          Ev.absY (processReport d s).state.dev.last_y ∈ (processReport d s).mouEvents) ∧
      (invalid_coords (raw_x d) (raw_y d) = true →
        (processReport d s).state.dev.last_x = s.dev.last_x ∧
          (processReport d s).state.dev.last_y = s.dev.last_y) ∧
      (s.dev.have_last_pos = false → invalid_coords (raw_x d) (raw_y d) = true →
        (∀ v, Ev.absX v ∉ (processReport d s).jsEvents) ∧
          (∀ v, Ev.absY v ∉ (processReport d s).jsEvents) ∧
          (∀ v, Ev.absX v ∉ (processReport d s).mouEvents) ∧
          (∀ v, Ev.absY v ∉ (processReport d s).mouEvents)) := by
  cases hinv : invalid_coords (raw_x d) (raw_y d) with
  | true =>
      refine ⟨?_, ?_, ?_, ?_⟩
      · intro h
        simpa [processReport, updateDev, hinv] using h
      · intro h
        simp only [processReport, updateDev, hinv, if_true] at h ⊢
        simp [posEvents, h]
      · simp [processReport, updateDev, hinv]
      · intro h _
        simp [processReport, updateDev, posEvents, hinv, h]
  | false =>
      refine ⟨?_, ?_, ?_, ?_⟩
      · intro h
        simp [processReport, updateDev, hinv]
      · intro _
        simp [processReport, updateDev, hinv, posEvents]
      · intro h
        exact absurd h (by decide)
      · intro _ h
        exact absurd h (by decide)

/-- Witness for C6: a sentinel frame processed with a present cache still
emits the cached X coordinate on the joystick device. -/
theorem last_pos_emission_witness :
    Ev.absX 400 ∈ (processReport sentinelBuf ⟨0, ⟨400, 130, true⟩⟩).jsEvents :=
  ((last_pos_emission ⟨0, ⟨400, 130, true⟩⟩ sentinelBuf).2.1 (by decide)).1

/-- C9: the claim says the debounce counter is per device instance.  In
the source it is function-static and shared: seven sentinel frames
delivered to instance A leave B's own cache untouched but advance the one
shared counter, so B's very first sentinel frame already reports
offscreen true on BTN_Z — with a per-instance counter B would be at 1 of
8 and report false. -/
theorem static_counter_cross_instance :
    (runOnA 7 sentinelBuf initWorld).offscreen_frames ≠ initWorld.offscreen_frames ∧
      (runOnA 7 sentinelBuf initWorld).devB = initWorld.devB ∧
      Ev.key BTN_Z true ∈ (irqOnB sentinelBuf (runOnA 7 sentinelBuf initWorld)).jsEvents := by
  decide

/-- Helper: the invariant holds in the initial state. -/
theorem cacheInv_initIrq : CacheInv initIrq := by
  intro h
  simp [initIrq] at h

/-- Helper: one valid-length report preserves the cache invariant. -/
theorem cacheInv_processReport (d : Nat → Nat) (s : IrqState) (hI : CacheInv s) :
    CacheInv (processReport d s).state := by
  intro h
  cases hinv : invalid_coords (raw_x d) (raw_y d) with
  | true =>
      simp only [processReport, updateDev, hinv, if_true] at h ⊢
      exact hI h
  | false =>
      simp only [processReport, updateDev, hinv, if_false] at h ⊢
      exact goodPos_of_invalid_eq_false _ _ hinv

/-- Helper: any callback invocation preserves the cache invariant. -/
theorem cacheInv_stepIrq (r : Report) (s : IrqState) (hI : CacheInv s) :
    CacheInv (stepIrq r s) := by
  obtain ⟨st, len, dt⟩ := r
  cases st with
  | ok =>
      by_cases hl : len = 6
      · simpa only [stepIrq, guncon2_usb_irq, hl, if_true] using cacheInv_processReport dt s hI
      · simpa only [stepIrq, guncon2_usb_irq, if_neg hl] using hI
  | etime => exact hI
  | econnreset => exact hI
  | enoent => exact hI
  | eshutdown => exact hI
  | epipe => exact hI
  | other i => exact hI

/-- Helper: the cache invariant holds after any run of callbacks. -/
theorem cacheInv_runIrqs (rs : List Report) :
    ∀ s, CacheInv s → CacheInv (runIrqs rs s) := by
  induction rs with
  | nil => intro s h; exact h
  | cons r t ih => intro s h; exact ih _ (cacheInv_stepIrq r s h)

/-- Helper: a position event comes only from a present cache and carries
one of the cached coordinates. -/
theorem mem_posEvents (dev : Guncon2Dev) (e : Ev) (h : e ∈ posEvents dev) :
    dev.have_last_pos = true ∧ (e = Ev.absX dev.last_x ∨ e = Ev.absY dev.last_y) := by
  by_cases hp : dev.have_last_pos = true
  · simp [posEvents, hp] at h
    exact ⟨hp, h⟩
  · simp [posEvents, hp] at h

/-- Helper: an emitted X position on either device equals the cached X. -/
theorem absX_mem_processReport (d : Nat → Nat) (s : IrqState) (v : Nat)
    (h : Ev.absX v ∈ (processReport d s).jsEvents ∨ Ev.absX v ∈ (processReport d s).mouEvents) :
    (processReport d s).state.dev.have_last_pos = true ∧
      v = (processReport d s).state.dev.last_x := by
  have hm : Ev.absX v ∈ posEvents (processReport d s).state.dev := by
    cases h with
    | inl h =>
        simp only [processReport, List.mem_append] at h ⊢
        cases h with
        | inl h => exact h
        | inr h => simp at h
    | inr h =>
        simp only [processReport, List.mem_append] at h ⊢
        cases h with
        | inl h => exact h
        | inr h => simp at h
  have hc := mem_posEvents _ _ hm
  refine ⟨hc.1, ?_⟩
  rcases hc.2 with h1 | h1
  · simpa using h1
  · simp at h1

/-- Helper: an emitted Y position on either device equals the cached Y. -/
theorem absY_mem_processReport (d : Nat → Nat) (s : IrqState) (v : Nat)
    (h : Ev.absY v ∈ (processReport d s).jsEvents ∨ Ev.absY v ∈ (processReport d s).mouEvents) :
    (processReport d s).state.dev.have_last_pos = true ∧
      v = (processReport d s).state.dev.last_y := by
  have hm : Ev.absY v ∈ posEvents (processReport d s).state.dev := by
    cases h with
    | inl h =>
        simp only [processReport, List.mem_append] at h ⊢
        cases h with
        | inl h => exact h
        | inr h => simp at h
    | inr h =>
        simp only [processReport, List.mem_append] at h ⊢
        cases h with
        | inl h => exact h
        | inr h => simp at h
  have hc := mem_posEvents _ _ hm
  refine ⟨hc.1, ?_⟩
  rcases hc.2 with h1 | h1
  · simp at h1
  · simpa using h1

/-- Helper: under the cache invariant, every position a report emits is
inside the calibrated range. -/
theorem processReport_emission_bounds (d : Nat → Nat) (s : IrqState) (hI : CacheInv s) (v : Nat) :
    ((Ev.absX v ∈ (processReport d s).jsEvents ∨ Ev.absX v ∈ (processReport d s).mouEvents) →
      X_MIN ≤ v ∧ v ≤ X_MAX) ∧
      ((Ev.absY v ∈ (processReport d s).jsEvents ∨ Ev.absY v ∈ (processReport d s).mouEvents) →
        Y_MIN ≤ v ∧ v ≤ Y_MAX) := by
  have hP : CacheInv (processReport d s).state := cacheInv_processReport d s hI
  constructor
  · intro h
    obtain ⟨hp, hv⟩ := absX_mem_processReport d s v h
    have hg := hP hp
    unfold goodPos at hg
    obtain ⟨hx1, hx2, hy1, hy2, h5, h6⟩ := hg
    subst hv
    exact ⟨hx1, hx2⟩
  · intro h
    obtain ⟨hp, hv⟩ := absY_mem_processReport d s v h
    have hg := hP hp
    unfold goodPos at hg
    obtain ⟨hx1, hx2, hy1, hy2, h5, h6⟩ := hg
    subst hv
    exact ⟨hy1, hy2⟩

/-- Helper: only a successful 6-byte delivery puts anything in the
joystick batch. -/
theorem mem_irq_jsEvents (st : UrbStatus) (len : Nat) (dt : Nat → Nat) (s : IrqState) (e : Ev)
    (h : e ∈ (guncon2_usb_irq st len dt s).jsEvents) :
    st = UrbStatus.ok ∧ len = 6 ∧ e ∈ (processReport dt s).jsEvents := by
  cases st with
  | ok =>
      by_cases hl : len = 6
      · rw [guncon2_usb_irq, if_pos hl] at h
        exact ⟨rfl, hl, h⟩
      · rw [guncon2_usb_irq, if_neg hl] at h
        simp at h
  | etime => simp [guncon2_usb_irq] at h
  | econnreset => simp [guncon2_usb_irq] at h
  | enoent => simp [guncon2_usb_irq] at h
  | eshutdown => simp [guncon2_usb_irq] at h
  | epipe => simp [guncon2_usb_irq] at h
  | other i => simp [guncon2_usb_irq] at h

/-- Helper: only a successful 6-byte delivery puts anything in the mouse
batch. -/
theorem mem_irq_mouEvents (st : UrbStatus) (len : Nat) (dt : Nat → Nat) (s : IrqState) (e : Ev)
    (h : e ∈ (guncon2_usb_irq st len dt s).mouEvents) :
    st = UrbStatus.ok ∧ len = 6 ∧ e ∈ (processReport dt s).mouEvents := by
  cases st with
  | ok =>
      by_cases hl : len = 6
      · rw [guncon2_usb_irq, if_pos hl] at h
        exact ⟨rfl, hl, h⟩
      · rw [guncon2_usb_irq, if_neg hl] at h
        simp at h
  | etime => simp [guncon2_usb_irq] at h
  | econnreset => simp [guncon2_usb_irq] at h
  | enoent => simp [guncon2_usb_irq] at h
  | eshutdown => simp [guncon2_usb_irq] at h
  | epipe => simp [guncon2_usb_irq] at h
  | other i => simp [guncon2_usb_irq] at h

/-- C10: after any run of callbacks from the initial state the cache
invariant holds — a present cache is in range and not a reserved code —
and therefore every position the next callback emits, on either logical
device, is inside the calibrated range. -/
theorem cache_and_emission_in_range (steps : List Report) (r : Report) :
    CacheInv (runIrqs steps initIrq) ∧
      (∀ v, Ev.absX v ∈ (guncon2_usb_irq r.status r.actual_length r.data
          (runIrqs steps initIrq)).jsEvents → X_MIN ≤ v ∧ v ≤ X_MAX) ∧
      (∀ v, Ev.absY v ∈ (guncon2_usb_irq r.status r.actual_length r.data
          (runIrqs steps initIrq)).jsEvents → Y_MIN ≤ v ∧ v ≤ Y_MAX) ∧
      (∀ v, Ev.absX v ∈ (guncon2_usb_irq r.status r.actual_length r.data
          (runIrqs steps initIrq)).mouEvents → X_MIN ≤ v ∧ v ≤ X_MAX) ∧
      (∀ v, Ev.absY v ∈ (guncon2_usb_irq r.status r.actual_length r.data
          (runIrqs steps initIrq)).mouEvents → Y_MIN ≤ v ∧ v ≤ Y_MAX) := by
  have hI : CacheInv (runIrqs steps initIrq) := cacheInv_runIrqs steps initIrq cacheInv_initIrq
  obtain ⟨st, len, dt⟩ := r
  refine ⟨hI, ?_, ?_, ?_, ?_⟩
  · intro v hv
    obtain ⟨-, -, hm⟩ := mem_irq_jsEvents _ _ _ _ _ hv
    exact (processReport_emission_bounds dt (runIrqs steps initIrq) hI v).1 (Or.inl hm)
  · intro v hv
    obtain ⟨-, -, hm⟩ := mem_irq_jsEvents _ _ _ _ _ hv
    exact (processReport_emission_bounds dt (runIrqs steps initIrq) hI v).2 (Or.inl hm)
  · intro v hv
    obtain ⟨-, -, hm⟩ := mem_irq_mouEvents _ _ _ _ _ hv
    exact (processReport_emission_bounds dt (runIrqs steps initIrq) hI v).1 (Or.inr hm)
  · intro v hv
    obtain ⟨-, -, hm⟩ := mem_irq_mouEvents _ _ _ _ _ hv
    exact (processReport_emission_bounds dt (runIrqs steps initIrq) hI v).2 (Or.inr hm)

/-- Witness for C10: the X position emitted for a usable first report is
inside the calibrated X range. -/
theorem cache_and_emission_in_range_witness : X_MIN ≤ 400 ∧ 400 ≤ X_MAX :=
  (cache_and_emission_in_range [] ⟨UrbStatus.ok, 6, usableBuf⟩).2.1 400 (by decide)

end Guncon2
